import Mathlib

/-!
Shallow embedding of the log-ingestion service (auth-proxy): tenant
resolution, JWT validation, the auth middleware and logs handler, the
batching engine, destination provisioning, and bulk-response handling.
Each definition is translated from the Go source; the namespaces mirror
the storage/auth variants present in the repository.
-/

namespace LogSvc

/-- JSON-compatible value as decoded by Go's `encoding/json` into
`interface\x7b\x7d`: strings, numbers (float64; modelled here restricted to
integral values, which `%.0f` formats as their decimal digits), booleans,
null, arrays and objects. -/
inductive JValue where
  | null
  | str (s : String)
  | num (n : Int)
  | bool (b : Bool)
  | arr (xs : List JValue)
  | obj (fields : List (String × JValue))

/-- A log record: `map[string]interface\x7b\x7d` in Go, modelled as an
association list (first binding wins on lookup). -/
abbrev LogEntry := List (String × JValue)

/-- Go map read `v, ok := m[k]`: `some v` when the key is present. -/
def mapGet (e : LogEntry) (k : String) : Option JValue :=
  (e.find? (fun p => p.1 == k)).map (fun p => p.2)

/-- Go map assignment `m[k] = v`: replace an existing binding, else append. -/
def mapSet : LogEntry → String → JValue → LogEntry
  | [], k, v => [(k, v)]
  | (k1, v1) :: rest, k, v =>
    if k1 == k then (k, v) :: rest else (k1, v1) :: mapSet rest k v

mutual

/-- Go's default `fmt.Sprintf` rendering of a decoded JSON value (the
`%v` verb), as used by the `default` branch of the HTTP-client variant's
account-id extraction. -/
def goFmt : JValue → String
  | JValue.null => "<nil>"
  | JValue.str s => s
  | JValue.num n => toString n
  | JValue.bool b => toString b
  | JValue.arr xs => "[" ++ String.intercalate " " (goFmtList xs) ++ "]"
  | JValue.obj fs => "map[" ++ String.intercalate " " (goFmtFields fs) ++ "]"

/-- `%v` rendering of each element of a JSON array. -/
def goFmtList : List JValue → List String
  | [] => []
  | x :: xs => goFmt x :: goFmtList xs

/-- `%v` rendering of each `key:value` pair of a JSON object. -/
def goFmtFields : List (String × JValue) → List String
  | [] => []
  | (k, v) :: fs => (k ++ ":" ++ goFmt v) :: goFmtFields fs

end

/-! ### BulkIndexer storage variant (storage via `esutil.BulkIndexer`) -/

namespace Indexer

/-- `extractAccountIdFromLog` of the BulkIndexer variant: a plain type
assertion `logEntry["log_account_id"].(string)`; anything that is not a
string (absent key, null, number, ...) yields the empty string. -/
def extractAccountIdFromLog (logEntry : LogEntry) : String :=
  match mapGet logEntry "log_account_id" with
  | some (JValue.str v) => v
  | _ => ""

/-- `chooseEffectiveAccountID(logAccountID, tokenAccountID)`: sentinel
`"1000000"` or empty defers to the token account; an equal value returns
the token account; any other value wins. -/
def chooseEffectiveAccountID (logAccountID tokenAccountID : String) : String :=
  if logAccountID == "1000000" || logAccountID == "" then
    tokenAccountID
  else if logAccountID != tokenAccountID then
    logAccountID
  else
    tokenAccountID

/-- Destination data-stream name: `fmt.Sprintf("logs-account-%s", effectiveAccountID)`. -/
def indexName (effectiveAccountID : String) : String :=
  "logs-account-" ++ effectiveAccountID

end Indexer

/-! ### HTTP-client storage variant with datastream provisioning -/

namespace HttpDS

/-- `extractAccountIdFromLog` of the HTTP-client variant: reads the
`account_id` field, accepting a string directly, formatting a number with
`%.0f`/`%d`, and falling back to `%v` for other non-nil values. -/
def extractAccountIdFromLog (logEntry : LogEntry) : String :=
  match mapGet logEntry "account_id" with
  | none => ""
  | some JValue.null => ""
  | some (JValue.str t) => t
  | some (JValue.num t) => toString t
  | some other => goFmt other

/-- `chooseAccountId(logAccount, tokenAccount)`: default to the token
account; sentinel `"1000000"` or a matching value uses the token account;
any other non-empty value wins. -/
def chooseAccountId (logAccount tokenAccount : String) : String :=
  let effectiveAccount := tokenAccount
  if logAccount != "" then
    if logAccount == "1000000" then
      tokenAccount
    else if logAccount == tokenAccount then
      tokenAccount
    else
      logAccount
  else
    effectiveAccount

/-- Destination data-stream name: `fmt.Sprintf("account-%s-logs", effectiveAccount)`. -/
def dsName (effectiveAccount : String) : String :=
  "account-" ++ effectiveAccount ++ "-logs"

/-- Destination of one record inside `StoreLogs`: the data-stream name
derived from the effective account selection for that record. -/
def recordDsName (tokenAccount : String) (logEntry : LogEntry) : String :=
  dsName (chooseAccountId (extractAccountIdFromLog logEntry) tokenAccount)

/-- The `dsSet` a single `StoreLogs` call accumulates: the unique
data-stream names of the batch (Go iterates a `map[string]struct\x7b\x7d`,
so only membership and uniqueness are meaningful; we keep a deduplicated
list). `ensureDataStreamExists` is invoked exactly once per element. -/
def storeLogsDsSet (tokenAccount : String) (logs : List LogEntry) : List String :=
  (logs.map (recordDsName tokenAccount)).dedup

/-- The in-place enrichment `StoreLogs` applies to a record before
serialising it: `token_accountId`, `log_accountId` and `@timestamp`. -/
def enrich (tokenAccount timestamp : String) (logEntry : LogEntry) : LogEntry :=
  mapSet
    (mapSet
      (mapSet logEntry "token_accountId" (JValue.str tokenAccount))
      "log_accountId" (JValue.str (extractAccountIdFromLog logEntry)))
    "@timestamp" (JValue.str timestamp)

/-- First error produced while ensuring each data stream of the set
exists (`for ds := range dsSet \x7b if err := es.ensureDataStreamExists(ctx, ds); err != nil \x7b return err \x7d \x7d`). -/
def firstEnsureError (ensure : String → Except String Unit) (dss : List String) : Option String :=
  dss.findSome? (fun ds =>
    match ensure ds with
    | Except.error e => some e
    | Except.ok _ => none)

/-- `StoreLogs` of the HTTP-client variant, abstracted over the outcome of
`ensureDataStreamExists` per destination: it builds the bulk body for all
records, then ensures every destination in `dsSet`; the first provisioning
error aborts the call before the bulk request is sent, so on error nothing
is written; on success the bulk request carries every (destination,
enriched record) pair. -/
def storeLogs (ensure : String → Except String Unit) (tokenAccount timestamp : String)
    (logs : List LogEntry) : Except String (List (String × LogEntry)) :=
  if logs.isEmpty then Except.ok []
  else
    match firstEnsureError ensure (storeLogsDsSet tokenAccount logs) with
    | some e => Except.error e
    | none => Except.ok (logs.map (fun logEntry =>
        (recordDsName tokenAccount logEntry, enrich tokenAccount timestamp logEntry)))

/-- Provisioning attempts over a whole process lifetime, modelled as the
concatenation of the `dsSet` of each successive flush (each `StoreLogs`
call re-derives its own `dsSet`; no state survives between calls). -/
def processEnsureAttempts (flushes : List (String × List LogEntry)) : List String :=
  flushes.flatMap (fun f => storeLogsDsSet f.1 f.2)

end HttpDS

/-! ### Older HTTP-client storage variant (inline resolution rules) -/

namespace HttpDSOld

/-- The inline effective-account selection of the older HTTP-client
variant's `StoreLogs`: unlike `chooseAccountId`, its rule 1 keeps the
sentinel itself ("If log account is 1000000, use it"). -/
def chooseAccountIdInline (logAccount accountID : String) : String :=
  let effectiveAccount := accountID
  if logAccount != "" then
    if logAccount == "1000000" then
      "1000000"
    else if logAccount == accountID then
      accountID
    else
      logAccount
  else
    effectiveAccount

end HttpDSOld

/-! ### Batching storage variant (pending-batch map, channel, timer) -/

namespace Batch

/-- `StoreLogs` of the batching variant, for one account's pending entry
of `pendingBatches`: append the incoming records; when the accumulated
length reaches `batchSize`, take the whole accumulated batch and send it
on the channel (non-blocking: a full channel re-queues it for the next
timer flush). Returns the new pending list and the batches sent. -/
def storeLogs (batchSize : Nat) (channelHasRoom : Bool)
    (pending logs : List LogEntry) : List LogEntry × List (List LogEntry) :=
  if logs.isEmpty then (pending, [])
  else
    let pending1 := pending ++ logs
    if batchSize ≤ pending1.length then
      if channelHasRoom then ([], [pending1])
      else (pending1, [])
    else (pending1, [])

/-- `flushAll` restricted to one account's pending entry: a non-empty
pending batch is sent whole on the channel (dropped from the map on
success, kept when the channel is full). Runs on every ticker tick and on
shutdown. -/
def flushAll (channelHasRoom : Bool) (pending : List LogEntry) :
    List LogEntry × List (List LogEntry) :=
  if 0 < pending.length then
    if channelHasRoom then ([], [pending])
    else (pending, [])
  else (pending, [])

end Batch

/-! ### Bulk-response handling -/

namespace Bulk

/-- Observable outcome of one `esapi.BulkRequest.Do` call: transport
error, HTTP-level error status (`IsError`), whether the response body
decoded, and the response's per-item `errors` flag. -/
structure EsBulkOutcome where
  transportErr : Option String
  statusIsError : Bool
  decodeOk : Bool
  errorsFlag : Bool
deriving DecidableEq

/-- `bulkRequestHandler`: a transport failure or an error status is
returned to the caller; a decode failure of the response body and the
per-item `errors` flag are only logged, after which the handler returns
nil — no per-item error is surfaced or retried. -/
def bulkRequestHandler (r : EsBulkOutcome) : Except String Unit :=
  match r.transportErr with
  | some e => Except.error ("failed to execute bulk request: " ++ e)
  | none =>
    if r.statusIsError then Except.error "bulk request failed"
    else Except.ok ()

/-- Tail of the plain HTTP-client `StoreLogs` after `client.Do` returned a
response: a status outside 2xx is an error; otherwise a body that fails to
parse and a response with `errors: true` are only logged and the call
returns nil. -/
def bulkResponseOutcome (statusCode : Nat) (decodeOk errorsFlag : Bool)
    (respBody : String) : Except String Unit :=
  if statusCode < 200 ∨ 300 ≤ statusCode then
    Except.error ("elasticsearch bulk API returned status " ++ toString statusCode
      ++ ": " ++ respBody)
  else
    Except.ok ()

end Bulk

/-! ### JWT validation -/

namespace Auth

/-- `auth.Claims` (claims.go). -/
structure Claims where
  accountID : Int
  issuer : String
  subject : String
  issuedAt : Int
  expiresAt : Int
deriving DecidableEq

/-- `Claims.GetAccountID`: the non-zero account id formatted with `%d`,
else the empty string. -/
def Claims.GetAccountID (c : Claims) : String :=
  if c.accountID != 0 then toString c.accountID else ""

/-- Decoded payload of a bearer token (`CustomClaims` of the validator
files): the `accountId` claim plus the registered claims the code
consults. `expiresAt` is `none` when the token carries no `exp` claim. -/
structure TokenPayload where
  accountId : Int
  expiresAt : Option Int
  issuer : String
  subject : String
deriving DecidableEq

/-- A presented token as the `golang-jwt` library classifies it:
structurally well formed (parses), RSA signature valid against the
configured key, and its decoded payload. -/
structure Token where
  wellFormed : Bool
  sigValidRSA : Bool
  payload : TokenPayload
deriving DecidableEq

/-- `claims.ExpiresAt.Before(time.Now())`: an `exp` claim strictly in the
past; absent `exp` never counts as expired. -/
def isExpired (now : Int) (t : Token) : Bool :=
  match t.payload.expiresAt with
  | some e => decide (e < now)
  | none => false

/-- `JWTValidator.Validate` of the variant with an `InsecureSkipVerify`
mode. With `skipVerify` the token is parsed by `jwt.Parser.ParseUnverified`,
which checks neither the signature nor the registered claims (no expiry
check happens on this path); only `accountId != 0` is enforced. Without
`skipVerify`, `jwt.ParseWithClaims` verifies the RSA signature and
validates the registered claims (an expired token fails the parse), then
the code re-checks expiry explicitly and requires `accountId != 0`. -/
def validateSkippable (skipVerify : Bool) (now : Int) (t : Token) : Except String Claims :=
  if skipVerify then
    if !t.wellFormed then Except.error "failed to parse token"
    else if t.payload.accountId == 0 then Except.error "accountId not found in token"
    else Except.ok ⟨t.payload.accountId, t.payload.issuer, t.payload.subject, 0, 0⟩
  else
    if !t.wellFormed || !t.sigValidRSA || isExpired now t then
      Except.error "failed to parse token"
    else if isExpired now t then Except.error "token expired"
    else if t.payload.accountId == 0 then Except.error "accountId not found in token"
    else Except.ok ⟨t.payload.accountId, t.payload.issuer, t.payload.subject, 0, 0⟩

/-- `JWTValidator.Validate` of the RSA-only variant: `jwt.ParseWithClaims`
verifies the signature and validates the registered claims (an expired
token fails the parse with an error), then `accountId != 0` is required. -/
def validateRSA (now : Int) (t : Token) : Except String Claims :=
  if !t.wellFormed || !t.sigValidRSA || isExpired now t then
    Except.error "failed to parse token"
  else if t.payload.accountId == 0 then Except.error "accountId not found in token"
  else Except.ok ⟨t.payload.accountId, t.payload.issuer, t.payload.subject, 0, 0⟩

/-- `CustomClaims` of the permissive single-file build: a string
`customer_id` and an Akto-style numeric `accountId`. -/
structure CustomClaimsPermissive where
  customerID : String
  accountID : Int
deriving DecidableEq

/-- `CustomClaims.GetCustomerID`: the non-empty `customer_id` wins, else a
non-zero `accountId` formatted with `%d`, else the empty string. -/
def CustomClaimsPermissive.GetCustomerID (c : CustomClaimsPermissive) : String :=
  if c.customerID != "" then c.customerID
  else if c.accountID != 0 then toString c.accountID
  else ""

/-- The permissive build's tenant check inside `validateJWT`: a token
whose `GetCustomerID` is empty is rejected with the missing-tenant error. -/
def permissiveTenantCheck (c : CustomClaimsPermissive) : Except String String :=
  let customerID := c.GetCustomerID
  if customerID == "" then Except.error "customer_id or accountId not found in token"
  else Except.ok customerID

end Auth

/-! ### HTTP gate: auth middleware and logs handler -/

namespace Gate

/-- An inbound HTTP request as the gate observes it: the method, the
`Authorization` header (`Header.Get` returns the empty string when the
header is absent), and the body, already classified by `json.Decode` into
a log array (`some`) or a decode failure (`none`). -/
structure Request where
  method : String
  authHeader : String
  body : Option (List LogEntry)

/-- An HTTP response: status code and written body (`http.Error` appends a
newline to its message). -/
structure Response where
  status : Nat
  body : String
deriving DecidableEq

/-- Go `strings.SplitN(s, " ", 2)`: at most two pieces, split at the first
space. -/
def splitN2Space (s : String) : List String :=
  match s.splitOn " " with
  | [] => []
  | [x] => [x]
  | x :: rest => [x, String.intercalate " " rest]

/-- `middleware.AuthMiddleware`: an absent `Authorization` header or one
that is not `Bearer <token>` (case-insensitive scheme) answers 401 before
the validator is consulted; a token the validator rejects answers 403;
otherwise the claims are attached and the wrapped handler runs. -/
def authMiddleware (validate : String → Except String Auth.Claims)
    (next : Auth.Claims → Request → Response) (r : Request) : Response :=
  if r.authHeader == "" then ⟨401, "Unauthorized\n"⟩
  else
    match splitN2Space r.authHeader with
    | [scheme, token] =>
      if scheme.toLower == "bearer" then
        match validate token with
        | Except.error _ => ⟨403, "Forbidden\n"⟩
        | Except.ok claims => next claims r
      else ⟨401, "Unauthorized\n"⟩
    | _ => ⟨401, "Unauthorized\n"⟩

/-- `LogsHandler.ServeHTTP` (accepted-variant): non-POST answers 405;
missing claims in the request context answer 401; a body that fails to
decode as a JSON array answers 400; a storage error answers 500; otherwise
202 with `\x7b"status":"accepted"\x7d`. -/
def logsHandlerServeHTTP (store : String → List LogEntry → Except String Unit)
    (claims : Option Auth.Claims) (r : Request) : Response :=
  if r.method != "POST" then ⟨405, "Method not allowed\n"⟩
  else
    match claims with
    | none => ⟨401, "Unauthorized\n"⟩
    | some c =>
      let accountID := c.GetAccountID
      match r.body with
      | none => ⟨400, "Bad request\n"⟩
      | some logs =>
        match store accountID logs with
        | Except.error _ => ⟨500, "Internal server error\n"⟩
        | Except.ok _ => ⟨202, "\x7b\"status\":\"accepted\"\x7d"⟩

/-- The `/logs` route as the server wires it:
`authMiddleware(validator)(logsHandler)` — the middleware wraps the
handler, so auth runs first for every method. -/
def logsEndpoint (validate : String → Except String Auth.Claims)
    (store : String → List LogEntry → Except String Unit) (r : Request) : Response :=
  authMiddleware validate (fun claims req => logsHandlerServeHTTP store (some claims) req) r

/-- The response mapping in the order the amended claim states it (written
from the spec's words, to be compared with `logsEndpoint`): missing or
malformed Authorization header → 401; rejected token → 403; then a method
other than POST → 405; then a malformed JSON body → 400; then a storage
failure → 500; otherwise 202 accepted. -/
def specResponseMapping (validate : String → Except String Auth.Claims)
    (store : String → List LogEntry → Except String Unit) (r : Request) : Response :=
  let bearerToken : Option String :=
    if r.authHeader == "" then none
    else
      match splitN2Space r.authHeader with
      | [scheme, token] => if scheme.toLower == "bearer" then some token else none
      | _ => none
  match bearerToken with
  | none => ⟨401, "Unauthorized\n"⟩
  | some token =>
    match validate token with
    | Except.error _ => ⟨403, "Forbidden\n"⟩
    | Except.ok claims =>
      if r.method != "POST" then ⟨405, "Method not allowed\n"⟩
      else
        match r.body with
        | none => ⟨400, "Bad request\n"⟩
        | some logs =>
          match store claims.GetAccountID logs with
          | Except.error _ => ⟨500, "Internal server error\n"⟩
          | Except.ok _ => ⟨202, "\x7b\"status\":\"accepted\"\x7d"⟩

end Gate

/-! ### Helper lemmas: a `%d`-formatted integer is never the empty string -/

theorem toDigitsCore_length_le (b : Nat) :
    ∀ (f n : Nat) (ds : List Char), ds.length ≤ (Nat.toDigitsCore b f n ds).length := by
  intro f
  induction f with
  | zero => intro n ds; simp [Nat.toDigitsCore]
  | succ f ih =>
    intro n ds
    simp only [Nat.toDigitsCore]
    split
    · simp
    · calc ds.length ≤ (Nat.digitChar (n % b) :: ds).length := by simp
        _ ≤ _ := ih (n / b) (Nat.digitChar (n % b) :: ds)

theorem toDigits_ne_nil (b n : Nat) : Nat.toDigits b n ≠ [] := by
  have h : 1 ≤ (Nat.toDigits b n).length := by
    simp only [Nat.toDigits, Nat.toDigitsCore]
    split
    · simp
    · calc 1 = ([Nat.digitChar (n % b)] : List Char).length := by simp
        _ ≤ _ := toDigitsCore_length_le b n (n / b) [Nat.digitChar (n % b)]
  intro hnil
  rw [hnil] at h
  simp at h

theorem natRepr_ne_empty (n : Nat) : Nat.repr n ≠ "" := by
  intro h
  have hd : (Nat.toDigits 10 n) = [] := congrArg String.data h
  exact toDigits_ne_nil 10 n hd

theorem intToString_ne_empty (a : Int) : toString a ≠ "" := by
  cases a with
  | ofNat m =>
    have h : toString (Int.ofNat m) = Nat.repr m := rfl
    rw [h]
    exact natRepr_ne_empty m
  | negSucc m =>
    have h : toString (Int.negSucc m) = "-" ++ Nat.repr (m + 1) := rfl
    rw [h]
    intro hc
    have hlen := congrArg String.length hc
    simp [String.length_append] at hlen
    exact absurd hlen.1 (by decide)

/-! ### C1: tenant resolution rules -/

/-- C1 counterexample: the older HTTP-client variant's inline resolution
maps the sentinel asserted tenant to the sentinel itself, not to the
credential tenant, so `resolve(sentinel, X) = X` fails there for
`X = "5"`. -/
theorem c1_counterexample :
    HttpDSOld.chooseAccountIdInline "1000000" "5" = "1000000" ∧
    HttpDSOld.chooseAccountIdInline "1000000" "5" ≠ "5" := by
  constructor
  · rfl
  · decide

/-- C1 (amended): `chooseAccountId` and `chooseEffectiveAccountID` satisfy
all four resolution equations — the sentinel `"1000000"` or an empty
asserted tenant defers to the credential tenant, an equal asserted tenant
is returned unchanged, and any other asserted tenant wins; the older
variant's inline rule satisfies the last three but maps the sentinel to
the sentinel itself rather than to the credential tenant. -/
theorem c1_resolution_rules (X Y : String)
    (hY1 : Y ≠ "") (hY2 : Y ≠ "1000000") (hY3 : Y ≠ X) :
    (HttpDS.chooseAccountId "1000000" X = X ∧
     HttpDS.chooseAccountId "" X = X ∧
     HttpDS.chooseAccountId X X = X ∧
     HttpDS.chooseAccountId Y X = Y) ∧
    (Indexer.chooseEffectiveAccountID "1000000" X = X ∧
     Indexer.chooseEffectiveAccountID "" X = X ∧
     Indexer.chooseEffectiveAccountID X X = X ∧
     Indexer.chooseEffectiveAccountID Y X = Y) ∧
    (HttpDSOld.chooseAccountIdInline "" X = X ∧
     HttpDSOld.chooseAccountIdInline X X = X ∧
     HttpDSOld.chooseAccountIdInline Y X = Y ∧
     HttpDSOld.chooseAccountIdInline "1000000" X = "1000000") := by
  have hb1 : (Y != "") = true := by simp [hY1]
  have hb2 : (Y == "1000000") = false := by simp [hY2]
  have hb3 : (Y == X) = false := by simp [hY3]
  have hb4 : (Y == "") = false := by simp [hY1]
  have hb5 : (Y != X) = true := by simp [hY3]
  refine ⟨⟨?_, ?_, ?_, ?_⟩, ⟨?_, ?_, ?_, ?_⟩, ⟨?_, ?_, ?_, ?_⟩⟩ <;>
    simp [HttpDS.chooseAccountId, Indexer.chooseEffectiveAccountID,
      HttpDSOld.chooseAccountIdInline, hb1, hb2, hb3, hb4, hb5]
  all_goals
    intro hne heq
    exact heq.symm

/-- C1 witness: the amended resolution rules at the concrete credential
tenant `"5"` and asserted tenant `"7"`. -/
theorem c1_resolution_rules_witness :
    (HttpDS.chooseAccountId "1000000" "5" = "5" ∧
     HttpDS.chooseAccountId "" "5" = "5" ∧
     HttpDS.chooseAccountId "5" "5" = "5" ∧
     HttpDS.chooseAccountId "7" "5" = "7") ∧
    (Indexer.chooseEffectiveAccountID "1000000" "5" = "5" ∧
     Indexer.chooseEffectiveAccountID "" "5" = "5" ∧
     Indexer.chooseEffectiveAccountID "5" "5" = "5" ∧
     Indexer.chooseEffectiveAccountID "7" "5" = "7") ∧
    (HttpDSOld.chooseAccountIdInline "" "5" = "5" ∧
     HttpDSOld.chooseAccountIdInline "5" "5" = "5" ∧
     HttpDSOld.chooseAccountIdInline "7" "5" = "7" ∧
     HttpDSOld.chooseAccountIdInline "1000000" "5" = "1000000") :=
  c1_resolution_rules "5" "7" (by decide) (by decide) (by decide)

/-! ### C2: expired tokens -/

/-- C2 counterexample: in the insecure skip-verification mode the token is
parsed by `ParseUnverified` and no expiry check runs, so an expired token
(exp 10, now 100) with a non-zero account id validates successfully. -/
theorem c2_counterexample :
    Auth.isExpired 100 ⟨true, true, ⟨5, some 10, "", ""⟩⟩ = true ∧
    Auth.validateSkippable true 100 ⟨true, true, ⟨5, some 10, "", ""⟩⟩ =
      Except.ok ⟨5, "", "", 0, 0⟩ := by
  constructor
  · rfl
  · rfl

/-- C2 (amended): a token whose expiry is in the past is rejected by the
validator in its signature-verifying mode (both validator variants); the
insecure skip-verification mode performs no expiry check. -/
theorem c2_expired_rejected_when_verifying (now e : Int) (t : Auth.Token)
    (hexp : t.payload.expiresAt = some e) (hlt : e < now) :
    (Auth.validateSkippable false now t).isOk = false ∧
    (Auth.validateRSA now t).isOk = false := by
  have hex : Auth.isExpired now t = true := by
    simp [Auth.isExpired, hexp, hlt]
  constructor <;>
    simp [Auth.validateSkippable, Auth.validateRSA, hex, Except.isOk, Except.toBool]

/-- C2 witness: the expired token with exp 10 at validation time 100 is
rejected by both signature-verifying validators. -/
theorem c2_expired_rejected_when_verifying_witness :
    (Auth.validateSkippable false 100 ⟨true, true, ⟨5, some 10, "", ""⟩⟩).isOk = false ∧
    (Auth.validateRSA 100 ⟨true, true, ⟨5, some 10, "", ""⟩⟩).isOk = false :=
  c2_expired_rejected_when_verifying 100 10 ⟨true, true, ⟨5, some 10, "", ""⟩⟩ rfl (by decide)

/-! ### C3: provisioning frequency -/

/-- C3 counterexample: two successive flushes for the same credential
tenant `"5"`, each holding one record addressed to
`account-5-logs`, perform two existence-check/creation round-trips — no
process-lifetime cache exists, so the destination confirmed by the first
flush is re-checked by the second. -/
theorem c3_counterexample :
    (HttpDS.processEnsureAttempts [("5", [[]]), ("5", [[]])]).count "account-5-logs" = 2 ∧
    ¬ (HttpDS.processEnsureAttempts [("5", [[]]), ("5", [[]])]).count "account-5-logs" ≤ 1 := by
  constructor
  · rfl
  · decide

/-- C3 (amended): destination provisioning is attempted at most once per
unique destination per flush — the per-call `dsSet` is duplicate-free —
and hence at most once per flush across a process lifetime (at most
`flushes.length` times in total), but each new flush repeats the attempt:
no state survives between `StoreLogs` calls. -/
theorem c3_ensure_once_per_flush (tokenAccount d : String) (logs : List LogEntry)
    (flushes : List (String × List LogEntry)) :
    (HttpDS.storeLogsDsSet tokenAccount logs).Nodup ∧
    (HttpDS.processEnsureAttempts flushes).count d ≤ flushes.length := by
  constructor
  · exact List.nodup_dedup _
  · induction flushes with
    | nil => simp [HttpDS.processEnsureAttempts]
    | cons f fs ih =>
      have h1 : (HttpDS.storeLogsDsSet f.1 f.2).count d ≤ 1 :=
        List.nodup_iff_count_le_one.mp (List.nodup_dedup _) d
      simp only [HttpDS.processEnsureAttempts, List.flatMap_cons, List.count_append,
        List.length_cons] at *
      omega

/-! ### C4: ingestion endpoint response mapping -/

/-- C4 counterexample: the auth middleware wraps the handler, so a GET
request without an Authorization header is answered 401, not the 405 the
claim promises for every non-POST request. -/
theorem c4_counterexample :
    (Gate.logsEndpoint (fun _ => Except.error "bad token") (fun _ _ => Except.ok ())
        ⟨"GET", "", none⟩).status = 401 ∧
    (Gate.logsEndpoint (fun _ => Except.error "bad token") (fun _ _ => Except.ok ())
        ⟨"GET", "", none⟩).status ≠ 405 := by
  constructor
  · rfl
  · decide

/-- C4 (amended): the `/logs` route responds exactly per the pipeline
order — a missing or malformed Authorization header gets 401 for any
method and any validator (the validator is not consulted); otherwise a
token the validator rejects gets 403; only then a method other than POST
gets 405; then a body that is not valid JSON gets 400; then a storage
failure gets 500; otherwise 202 Accepted with `\x7b"status":"accepted"\x7d`. -/
theorem c4_response_mapping (validate : String → Except String Auth.Claims)
    (store : String → List LogEntry → Except String Unit) (r : Gate.Request) :
    Gate.logsEndpoint validate store r = Gate.specResponseMapping validate store r := by
  unfold Gate.logsEndpoint Gate.authMiddleware Gate.specResponseMapping
    Gate.logsHandlerServeHTTP
  repeat' (first | rfl | split)

/-! ### C5: 501 records under threshold 500 -/

set_option maxRecDepth 4000 in
/-- C5 counterexample: enqueueing 501 records with threshold 500 flushes
them as a single batch of 501 — `StoreLogs` sends the whole accumulated
pending batch once the threshold is reached — leaving nothing pending, so
the next timer tick (`flushAll`) flushes nothing; the claim's two flushes
of 500 and 1 never happen. -/
theorem c5_counterexample :
    (Batch.storeLogs 500 true [] (List.replicate 501 ([] : LogEntry))).2.map List.length
      = [501] ∧
    (Batch.storeLogs 500 true [] (List.replicate 501 ([] : LogEntry))).1 = [] ∧
    Batch.flushAll true (Batch.storeLogs 500 true [] (List.replicate 501 ([] : LogEntry))).1
      = ([], []) := by
  refine ⟨?_, ?_, ?_⟩ <;> rfl

/-- C5 (amended): when one request's records reach the batch-size
threshold (and the channel has room), the engine performs exactly one
immediate flush carrying the entire accumulated batch — 501 records flush
as one batch of 501, not 500 — and the pending buffer is left empty, so
the following timer tick flushes nothing. -/
theorem c5_threshold_flush (batchSize : Nat) (pending logs : List LogEntry)
    (hne : logs ≠ []) (hth : batchSize ≤ pending.length + logs.length) :
    Batch.storeLogs batchSize true pending logs = ([], [pending ++ logs]) ∧
    Batch.flushAll true ([] : List LogEntry) = ([], []) := by
  constructor
  · have h1 : logs.isEmpty = false := by simp [List.isEmpty_iff, hne]
    have h2 : batchSize ≤ (pending ++ logs).length := by
      simpa [List.length_append] using hth
    simp [Batch.storeLogs, h1, h2, List.length_append, hth]
  · rfl

set_option maxRecDepth 4000 in
/-- C5 witness: the amended batching behaviour at 501 empty records under
threshold 500. -/
theorem c5_threshold_flush_witness :
    Batch.storeLogs 500 true [] (List.replicate 501 ([] : LogEntry))
      = ([], [List.replicate 501 ([] : LogEntry)]) ∧
    Batch.flushAll true ([] : List LogEntry) = ([], []) := by
  simpa using c5_threshold_flush 500 [] (List.replicate 501 ([] : LogEntry))
    (by simp) (by simp)

/-! ### C6: provisioning failure scope -/

/-- C6 counterexample: a flush carrying one record for account `"5"` and
one for account `"7"` under credential `"9"`, where provisioning fails for
`account-5-logs` only, returns the provisioning error without writing
anything — the record addressed to `account-7-logs` is not written even
though its destination provisions fine. -/
theorem c6_counterexample :
    HttpDS.storeLogs
      (fun ds => if ds == "account-5-logs" then Except.error "failed to create index template"
        else Except.ok ())
      "9" "T"
      [[("account_id", JValue.str "5")], [("account_id", JValue.str "7")]]
      = Except.error "failed to create index template" ∧
    (fun ds => if ds == "account-5-logs" then Except.error "failed to create index template"
        else Except.ok ()) "account-7-logs" = Except.ok () := by
  constructor
  · rfl
  · rfl

/-- C6 (amended): a provisioning failure for any destination of a flush
aborts the entire flush — `StoreLogs` returns the error before the bulk
request is sent, so no record of that flush is written, including records
addressed to destinations whose provisioning did not fail. -/
theorem c6_provisioning_failure_aborts_whole_flush
    (ensure : String → Except String Unit) (tokenAccount timestamp d msg : String)
    (logs : List LogEntry)
    (hd : d ∈ HttpDS.storeLogsDsSet tokenAccount logs)
    (hfail : ensure d = Except.error msg) :
    ∃ e, HttpDS.storeLogs ensure tokenAccount timestamp logs = Except.error e := by
  have hne : logs ≠ [] := by
    intro h
    subst h
    simp [HttpDS.storeLogsDsSet] at hd
  have hisE : logs.isEmpty = false := by simp [List.isEmpty_iff, hne]
  have hfs : HttpDS.firstEnsureError ensure (HttpDS.storeLogsDsSet tokenAccount logs) ≠ none := by
    intro hnone
    unfold HttpDS.firstEnsureError at hnone
    rw [List.findSome?_eq_none_iff] at hnone
    have hdd := hnone d hd
    rw [hfail] at hdd
    simp at hdd
  cases hcase : HttpDS.firstEnsureError ensure (HttpDS.storeLogsDsSet tokenAccount logs) with
  | none => exact absurd hcase hfs
  | some e =>
    refine ⟨e, ?_⟩
    simp [HttpDS.storeLogs, hisE, hcase]

/-- C6 witness: the amended abort-the-whole-flush behaviour at the
concrete two-destination flush. -/
theorem c6_provisioning_failure_aborts_whole_flush_witness :
    ∃ e, HttpDS.storeLogs
      (fun ds => if ds == "account-5-logs" then Except.error "failed to create index template"
        else Except.ok ())
      "9" "T"
      [[("account_id", JValue.str "5")], [("account_id", JValue.str "7")]]
      = Except.error e :=
  c6_provisioning_failure_aborts_whole_flush _ "9" "T" "account-5-logs"
    "failed to create index template" _ (by decide) rfl

/-! ### C7: partial bulk failure is non-fatal -/

/-- C7: when the bulk transport call succeeds (no transport error, non-error
status) but the response reports per-item rejections (`errors: true`), the
flush returns success in both storage variants; item failures are only
logged and nothing is retried. -/
theorem c7_partial_failure_nonfatal (r : Bulk.EsBulkOutcome) (statusCode : Nat)
    (decodeOk : Bool) (respBody : String)
    (hT : r.transportErr = none) (hS : r.statusIsError = false)
    (hE : r.errorsFlag = true) (hsc1 : 200 ≤ statusCode) (hsc2 : statusCode < 300) :
    Bulk.bulkRequestHandler r = Except.ok () ∧
    Bulk.bulkResponseOutcome statusCode decodeOk true respBody = Except.ok () := by
  constructor
  · simp [Bulk.bulkRequestHandler, hT, hS]
  · unfold Bulk.bulkResponseOutcome
    rw [if_neg (by omega : ¬(statusCode < 200 ∨ 300 ≤ statusCode))]

/-- C7 witness: a 200 bulk response with `errors: true` is a successful
flush in both variants. -/
theorem c7_partial_failure_nonfatal_witness :
    Bulk.bulkRequestHandler ⟨none, false, true, true⟩ = Except.ok () ∧
    Bulk.bulkResponseOutcome 200 true true "resp" = Except.ok () :=
  c7_partial_failure_nonfatal ⟨none, false, true, true⟩ 200 true "resp"
    rfl rfl rfl (by decide) (by decide)

/-! ### C8: tenant requirements of the validator -/

/-- C8 counterexample: a token with a valid RSA signature and account id 5
whose expiry (10) is already past at validation time (100) does not
validate successfully — the claim's hypothesis omits expiry, so as stated
it fails. -/
theorem c8_counterexample :
    Auth.validateRSA 100 ⟨true, true, ⟨5, some 10, "", ""⟩⟩ =
      Except.error "failed to parse token" := by
  rfl

/-- C8 (amended): for a well-formed token with a valid signature that is
not expired at validation time, validation succeeds exactly when the
payload carries a non-zero account id, returning that tenant, and fails
with the missing-tenant error when the account id is 0; in the permissive
build, a non-empty string customer id wins, else a non-zero account id is
used as its decimal string, else the missing-tenant error is raised. -/
theorem c8_tenant_requirements (now : Int) (t : Auth.Token)
    (c : Auth.CustomClaimsPermissive)
    (hw : t.wellFormed = true) (hs : t.sigValidRSA = true)
    (hexp : Auth.isExpired now t = false) :
    (t.payload.accountId ≠ 0 →
      Auth.validateRSA now t =
        Except.ok ⟨t.payload.accountId, t.payload.issuer, t.payload.subject, 0, 0⟩) ∧
    (t.payload.accountId = 0 →
      Auth.validateRSA now t = Except.error "accountId not found in token") ∧
    (c.customerID ≠ "" → Auth.permissiveTenantCheck c = Except.ok c.customerID) ∧
    (c.customerID = "" → c.accountID ≠ 0 →
      Auth.permissiveTenantCheck c = Except.ok (toString c.accountID)) ∧
    (c.customerID = "" → c.accountID = 0 →
      Auth.permissiveTenantCheck c =
        Except.error "customer_id or accountId not found in token") := by
  have hc : (!t.wellFormed || !t.sigValidRSA || Auth.isExpired now t) = false := by
    simp [hw, hs, hexp]
  refine ⟨?_, ?_, ?_, ?_, ?_⟩
  · intro h0
    have hb : (t.payload.accountId == 0) = false := by simp [h0]
    simp [Auth.validateRSA, hc, hb]
  · intro h0
    simp [Auth.validateRSA, hc, h0]
  · intro hcid
    have hb1 : (c.customerID != "") = true := by simp [hcid]
    have hb2 : (c.customerID == "") = false := by simp [hcid]
    simp [Auth.permissiveTenantCheck, Auth.CustomClaimsPermissive.GetCustomerID, hb1, hb2]
  · intro hcid h0
    have hb1 : (c.accountID != 0) = true := by simp [h0]
    have hb2 : (toString c.accountID == "") = false := by
      simp [intToString_ne_empty c.accountID]
    simp [Auth.permissiveTenantCheck, Auth.CustomClaimsPermissive.GetCustomerID,
      hcid, hb1, hb2]
  · intro hcid h0
    simp [Auth.permissiveTenantCheck, Auth.CustomClaimsPermissive.GetCustomerID, hcid, h0]

/-- C8 witness: the amended tenant rules at a concrete unexpired,
signature-valid token with account id 5 and a permissive claims payload
with empty customer id and account id 7. -/
theorem c8_tenant_requirements_witness :
    ((5 : Int) ≠ 0 →
      Auth.validateRSA 0 ⟨true, true, ⟨5, none, "iss", "sub"⟩⟩ =
        Except.ok ⟨5, "iss", "sub", 0, 0⟩) ∧
    ((5 : Int) = 0 →
      Auth.validateRSA 0 ⟨true, true, ⟨5, none, "iss", "sub"⟩⟩ =
        Except.error "accountId not found in token") ∧
    (("" : String) ≠ "" →
      Auth.permissiveTenantCheck ⟨"", 7⟩ = Except.ok "") ∧
    (("" : String) = "" → (7 : Int) ≠ 0 →
      Auth.permissiveTenantCheck ⟨"", 7⟩ = Except.ok (toString (7 : Int))) ∧
    (("" : String) = "" → (7 : Int) = 0 →
      Auth.permissiveTenantCheck ⟨"", 7⟩ =
        Except.error "customer_id or accountId not found in token") :=
  c8_tenant_requirements 0 ⟨true, true, ⟨5, none, "iss", "sub"⟩⟩ ⟨"", 7⟩ rfl rfl rfl

/-! ### C9: resolved tenant is non-empty -/

/-- The effective account is never empty when the token account is
non-empty: the first branch returns the token account, the middle branch
returns a log account that the guard shows is non-empty, and the last
branch returns the token account. -/
theorem chooseEffective_ne_empty (la ta : String) (h : ta ≠ "") :
    Indexer.chooseEffectiveAccountID la ta ≠ "" := by
  unfold Indexer.chooseEffectiveAccountID
  split
  · exact h
  · next hcond =>
    split
    · intro hla
      subst hla
      simp at hcond
    · exact h

/-- C9: for every record flushed with a validated caller tenant (the
validator guarantees a non-zero account id, so `GetAccountID` is a
non-empty string), the record's resolved tenant — the effective account
used to derive the destination name and the tenant tag — is non-empty. -/
theorem c9_resolved_tenant_nonempty (c : Auth.Claims) (logEntry : LogEntry)
    (h : c.accountID ≠ 0) :
    c.GetAccountID ≠ "" ∧
    Indexer.chooseEffectiveAccountID (Indexer.extractAccountIdFromLog logEntry)
      c.GetAccountID ≠ "" := by
  have hta : c.GetAccountID ≠ "" := by
    have hb : (c.accountID != 0) = true := by simp [h]
    simp [Auth.Claims.GetAccountID, hb, intToString_ne_empty]
  exact ⟨hta, chooseEffective_ne_empty _ _ hta⟩

/-- C9 witness: the non-empty resolved tenant at a concrete validated
claim with account id 5 and a record asserting no tenant. -/
theorem c9_resolved_tenant_nonempty_witness :
    (Auth.Claims.mk 5 "" "" 0 0).GetAccountID ≠ "" ∧
    Indexer.chooseEffectiveAccountID
      (Indexer.extractAccountIdFromLog ([] : LogEntry))
      (Auth.Claims.mk 5 "" "" 0 0).GetAccountID ≠ "" :=
  c9_resolved_tenant_nonempty ⟨5, "", "", 0, 0⟩ [] (by decide)

/-! ### C10: asserted-tenant field extraction across variants -/

/-- C10: in the BulkIndexer variant a `log_account_id` field that is
absent or holds any non-string JSON value (null, a number, ...) extracts
to the empty string, so the record resolves to the credential tenant; the
HTTP-client variant instead converts a numeric `account_id` to its decimal
string, which (when not the sentinel and different from the credential
tenant) redirects the record. -/
theorem c10_extraction_variants (logEntry : LogEntry) (v : JValue)
    (tokenAccount : String) (n : Int)
    (habs : mapGet logEntry "log_account_id" = none ∨
      (mapGet logEntry "log_account_id" = some v ∧ ∀ s, v ≠ JValue.str s))
    (hn1 : toString n ≠ "1000000") (hn2 : toString n ≠ tokenAccount) :
    Indexer.extractAccountIdFromLog logEntry = "" ∧
    Indexer.chooseEffectiveAccountID (Indexer.extractAccountIdFromLog logEntry)
      tokenAccount = tokenAccount ∧
    HttpDS.extractAccountIdFromLog [("account_id", JValue.num n)] = toString n ∧
    HttpDS.chooseAccountId (toString n) tokenAccount = toString n := by
  have h1 : Indexer.extractAccountIdFromLog logEntry = "" := by
    unfold Indexer.extractAccountIdFromLog
    rcases habs with h | ⟨h, hv⟩
    · rw [h]
    · rw [h]
      cases v with
      | str s => exact absurd rfl (hv s)
      | null => rfl
      | num m => rfl
      | bool b => rfl
      | arr xs => rfl
      | obj fs => rfl
  refine ⟨h1, ?_, ?_, ?_⟩
  · rw [h1]
    rfl
  · rfl
  · have hb1 : (toString n != "") = true := by simp [intToString_ne_empty n]
    have hb2 : (toString n == "1000000") = false := by simp [hn1]
    have hb3 : (toString n == tokenAccount) = false := by simp [hn2]
    simp [HttpDS.chooseAccountId, hb1, hb2, hb3]

/-- C10 witness: a record asserting the JSON number 42 extracts to the
empty string in the BulkIndexer variant and stays with credential tenant
`"7"`, while the HTTP-client variant converts it to `"42"` and redirects. -/
theorem c10_extraction_variants_witness :
    Indexer.extractAccountIdFromLog [("log_account_id", JValue.num 42)] = "" ∧
    Indexer.chooseEffectiveAccountID
      (Indexer.extractAccountIdFromLog [("log_account_id", JValue.num 42)]) "7" = "7" ∧
    HttpDS.extractAccountIdFromLog [("account_id", JValue.num 42)] = toString (42 : Int) ∧
    HttpDS.chooseAccountId (toString (42 : Int)) "7" = toString (42 : Int) :=
  c10_extraction_variants [("log_account_id", JValue.num 42)] (JValue.num 42) "7" 42
    (Or.inr ⟨rfl, fun s hs => JValue.noConfusion hs⟩) (by decide) (by decide)

end LogSvc
